import Mathlib

/-!
# GCP-Graphics: a verification development of `gcp.h`

A shallow embedding of the context / hint / frame-loop / drawing / resource-cache
layer of `src/gcp.h`, followed by theorems about it.

Conventions of the embedding

* The process-wide pointer `s_state` is an `Option State`, passed in and returned.
* A C++ exception is an `Except.error` next to the state reached when it was thrown.
* The rendering backend (SFML) is not part of the repository.  Its window is the record
  `RenderWindow`, which keeps what `gcp.h` hands to it (creation arguments, the pending
  event queue, the list of submissions); what only the backend can decide (whether a
  surface can be made, what a file contains, how large a text is) is a field of `Backend`.
* C++ `float` values are exact rationals (`Scalar`): rounding, overflow, infinities and
  NaN are outside the model.  `std::sqrt` and `std::atan2` are fields of `CMath`.
* The wall clock is an argument `now` (microseconds) of the operations that read it.
-/

namespace gcp

/-! ## Hints and configuration -/

/-- The `HintKey` enum. -/
inductive HintKey where
  | GCP_RESIZABLE
  | GCP_VSYNC
  | GCP_FPS_LIMIT
  | GCP_MSAA
  | GCP_TITLE
  | GCP_SIZE_W
  | GCP_SIZE_H
  deriving DecidableEq, Repr

/-- The variant `HintVal = std::variant<bool, int, std::string>`. -/
inductive HintVal where
  | ofBool (b : Bool)
  | ofInt (i : Int)
  | ofString (s : String)
  deriving DecidableEq, Repr

/-- What can stop a call before it returns. `badVariantAccess` is the exception
`std::bad_variant_access` thrown by `std::get`; `nullDeref` stands for a dereference of
`s_state` while it is null (C++ gives this no defined behaviour; the model stops the call
there). -/
inductive Fault where
  | badVariantAccess
  | nullDeref
  deriving DecidableEq, Repr

/-- The call `std::get<bool>(val)`. -/
def HintVal.getBool : HintVal → Except Fault Bool
  | .ofBool b => .ok b
  | _ => .error .badVariantAccess

/-- The call `std::get<int>(val)`. -/
def HintVal.getInt : HintVal → Except Fault Int
  | .ofInt i => .ok i
  | _ => .error .badVariantAccess

/-- The call `std::get<std::string>(val)`. -/
def HintVal.getString : HintVal → Except Fault String
  | .ofString s => .ok s
  | _ => .error .badVariantAccess

/-- The `struct Config` with its default member initialisers. -/
structure Config where
  resizable : Bool := true
  vsync : Bool := true
  fpsLimit : Int := 0
  msaa : Int := 0
  title : String := "gcp window"
  w : Int := 1024
  h : Int := 720
  deriving DecidableEq, Repr

/-! ## Backend values -/

/-- A C++ `float`, as an exact rational. -/
abbrev Scalar := ℚ

/-- SFML `sf::Vector2f`. -/
structure Vector2f where
  x : Scalar
  y : Scalar
  deriving DecidableEq, Repr

/-- SFML `sf::Color`; the three-argument constructor sets alpha to 255. -/
structure Color where
  r : Nat
  g : Nat
  b : Nat
  a : Nat := 255
  deriving DecidableEq, Repr

/-- SFML `sf::Color::White`. -/
def Color.White : Color := { r := 255, g := 255, b := 255 }

/-- SFML `sf::Color::Black`. -/
def Color.Black : Color := { r := 0, g := 0, b := 0 }

/-- SFML `sf::Event::EventType`. -/
inductive EventType where
  | Closed
  | Resized
  | LostFocus
  | GainedFocus
  | TextEntered
  | KeyPressed
  | KeyReleased
  | MouseWheelMoved
  | MouseWheelScrolled
  | MouseButtonPressed
  | MouseButtonReleased
  | MouseMoved
  | MouseEntered
  | MouseLeft
  | JoystickButtonPressed
  | JoystickButtonReleased
  | JoystickMoved
  | JoystickConnected
  | JoystickDisconnected
  | TouchBegan
  | TouchMoved
  | TouchEnded
  | SensorChanged
  deriving DecidableEq, Repr

/-- SFML `sf::Keyboard::Escape` (key codes are the enum's integer values). -/
def Keyboard.Escape : Int := 36

/-- SFML `sf::Event`: the type tag and, of the payload union, the member `key.code` that
`gcp.h` reads (meaningful for key events only). -/
structure Event where
  type : EventType
  keyCode : Int := -1
  deriving DecidableEq, Repr

/-- SFML `sf::View`: centre and size. -/
structure View where
  center : Vector2f := { x := 500, y := 500 }
  size : Vector2f := { x := 1000, y := 1000 }
  deriving DecidableEq, Repr

/-- Payload of a font file. -/
structure FontData where
  bytes : List Nat
  deriving DecidableEq, Repr

/-- Decoded image of a texture file. -/
structure Image where
  width : Nat
  height : Nat
  pixels : List Nat := []
  deriving DecidableEq, Repr

/-- SFML `sf::Font`; default-constructed it holds no face. -/
structure Font where
  face : Option FontData := none
  deriving DecidableEq, Repr

/-- SFML `sf::Texture`; default-constructed it is empty and not smooth. -/
structure Texture where
  image : Option Image := none
  smooth : Bool := false
  deriving DecidableEq, Repr

/-- SFML `sf::FloatRect`. -/
structure FloatRect where
  left : Scalar
  top : Scalar
  width : Scalar
  height : Scalar
  deriving DecidableEq, Repr

/-- SFML `sf::RectangleShape` as configured by `gcp.h`. -/
structure RectangleShape where
  size : Vector2f
  origin : Vector2f := { x := 0, y := 0 }
  position : Vector2f := { x := 0, y := 0 }
  rotation : Scalar := 0
  fillColor : Color := Color.White
  deriving DecidableEq, Repr

/-- SFML `sf::CircleShape` as configured by `gcp.h`. -/
structure CircleShape where
  radius : Scalar := 0
  origin : Vector2f := { x := 0, y := 0 }
  position : Vector2f := { x := 0, y := 0 }
  rotation : Scalar := 0
  fillColor : Color := Color.White
  deriving DecidableEq, Repr

/-- SFML `sf::Text` as configured by `gcp.h`. -/
structure Text where
  string : String
  font : Font
  characterSize : Nat
  fillColor : Color := Color.White
  outlineThickness : Scalar := 0
  outlineColor : Color := Color.Black
  origin : Vector2f := { x := 0, y := 0 }
  position : Vector2f := { x := 0, y := 0 }
  deriving DecidableEq, Repr

/-- SFML `sf::Sprite` as configured by `gcp.h`. -/
structure Sprite where
  texture : Texture
  origin : Vector2f := { x := 0, y := 0 }
  position : Vector2f := { x := 0, y := 0 }
  rotation : Scalar := 0
  scale : Vector2f := { x := 1, y := 1 }
  deriving DecidableEq, Repr

/-- What a call hands to the window. -/
inductive Submission where
  | clear (c : Color)
  | rect (r : RectangleShape)
  | circle (c : CircleShape)
  | text (t : Text)
  | sprite (s : Sprite)
  | display
  deriving DecidableEq, Repr

/-- What only the rendering backend decides. -/
structure Backend where
  /-- Whether `sf::RenderWindow::create(VideoMode(w, h), title, style, settings)` makes a
  surface; arguments: width, height, title, style bits, antialiasing level. -/
  makeSurface : Nat → Nat → String → Nat → Nat → Bool
  /-- What `sf::Font::loadFromFile(path)` finds at the path, if anything. -/
  fontFile : String → Option FontData
  /-- What `sf::Texture::loadFromFile(path)` finds at the path, if anything. -/
  textureFile : String → Option Image
  /-- Result of `sf::Text::getLocalBounds()` for a configured text. -/
  localBounds : Text → FloatRect

/-- SFML `sf::Style::Titlebar`. -/
def Style.Titlebar : Nat := 1

/-- SFML `sf::Style::Resize`. -/
def Style.Resize : Nat := 2

/-- SFML `sf::Style::Close`. -/
def Style.Close : Nat := 4

/-- SFML `sf::Style::Default`, which is `Titlebar | Resize | Close`. -/
def Style.Default : Nat := Style.Titlebar ||| Style.Resize ||| Style.Close

/-- SFML `sf::RenderWindow`: what `gcp.h` gives it and asks of it. -/
structure RenderWindow where
  opened : Bool := false
  width : Nat := 0
  height : Nat := 0
  title : String := ""
  style : Nat := 0
  antialiasingLevel : Nat := 0
  verticalSync : Bool := false
  framerateLimit : Nat := 0
  defaultView : View := {}
  view : View := {}
  events : List Event := []
  submitted : List Submission := []
  deriving DecidableEq, Repr

/-- SFML `sf::Clock`: the instant (microseconds) of construction or of the last restart. -/
structure Clock where
  start : Int
  deriving DecidableEq, Repr

/-- The `struct State`. -/
structure State where
  cfg : Config := {}
  window : RenderWindow := {}
  view : View := {}
  initialized : Bool := false
  clock : Clock
  deriving DecidableEq, Repr

/-- The expression `new State()`: every member default-initialised, the clock started at
`now`. -/
def State.new (now : Int) : State := { clock := { start := now } }

/-- Conversion of an `int` to `unsigned` (32 bits), as at the `sf::VideoMode`,
`antialiasingLevel` and `setFramerateLimit` arguments. -/
def toUnsigned (i : Int) : Nat := (i % 4294967296).toNat

/-! ## Window operations used by `gcp.h` -/

/-- SFML `sf::RenderWindow::close`. -/
def RenderWindow.close (win : RenderWindow) : RenderWindow :=
  { win with opened := false, events := [] }

/-- SFML `sf::RenderWindow::create`: the previous surface is dropped; the backend decides
whether the new one exists; the default view covers the requested size. -/
def RenderWindow.create (B : Backend) (width height : Nat) (title : String)
    (style antialiasing : Nat) (_old : RenderWindow) : RenderWindow :=
  let full : View :=
    { center := { x := (width : Scalar) / 2, y := (height : Scalar) / 2 },
      size := { x := (width : Scalar), y := (height : Scalar) } }
  { opened := B.makeSurface width height title style antialiasing,
    width := width, height := height, title := title, style := style,
    antialiasingLevel := antialiasing, defaultView := full, view := full }

/-- The function `createContext`. -/
def createContext (now : Int) (s_state : Option State) : Option State :=
  match s_state with
  | none => some (State.new now)
  | some s => some s

/-- The function `destroyContext`: the window is closed when initialised, then the state
is deleted. -/
def destroyContext (s_state : Option State) : Option State :=
  match s_state with
  | some s =>
    let _closed := if s.initialized then s.window.close else s.window
    none
  | none => none

/-- The function `windowHint`. The exception of `std::get` leaves the assignment undone;
the context made by the first line stays. -/
def windowHint (now : Int) (key : HintKey) (val : HintVal) (s_state : Option State) :
    Except Fault Unit × Option State :=
  let s_state := if s_state.isNone then createContext now s_state else s_state
  match s_state with
  | none => (.error .nullDeref, none)
  | some s =>
    let c := s.cfg
    let assigned : Except Fault Config :=
      match key with
      | .GCP_RESIZABLE => val.getBool.map fun b => { c with resizable := b }
      | .GCP_VSYNC => val.getBool.map fun b => { c with vsync := b }
      | .GCP_FPS_LIMIT => val.getInt.map fun i => { c with fpsLimit := i }
      | .GCP_MSAA => val.getInt.map fun i => { c with msaa := i }
      | .GCP_TITLE => val.getString.map fun t => { c with title := t }
      | .GCP_SIZE_W => val.getInt.map fun i => { c with w := i }
      | .GCP_SIZE_H => val.getInt.map fun i => { c with h := i }
    match assigned with
    | .ok c' => (.ok (), some { s with cfg := c' })
    | .error e => (.error e, some s)

/-- The function `createWindow`. -/
def createWindow (B : Backend) (now : Int) (s_state : Option State) :
    Except Fault Bool × Option State :=
  let s_state := if s_state.isNone then createContext now s_state else s_state
  match s_state with
  | none => (.error .nullDeref, none)
  | some s =>
    let antialiasingLevel := toUnsigned s.cfg.msaa
    let style := if s.cfg.resizable then Style.Default else (Style.Titlebar ||| Style.Close)
    let window := s.window.create B (toUnsigned s.cfg.w) (toUnsigned s.cfg.h) s.cfg.title
      style antialiasingLevel
    let window := { window with verticalSync := s.cfg.vsync }
    let window :=
      if s.cfg.fpsLimit > 0 then { window with framerateLimit := toUnsigned s.cfg.fpsLimit }
      else window
    let view := window.defaultView
    let window := { window with view := view }
    (.ok true, some { s with window := window, view := view, initialized := true })

/-- The function `isOpen`. -/
def isOpen (s_state : Option State) : Bool :=
  match s_state with
  | none => false
  | some s => s.window.opened

/-- The function `clearColor`: the new value of the global `s_clearColor`. -/
def clearColor (c : Color) (_s_clearColor : Color) : Color := c

/-- The body of the loop of `pollEvents` for one polled event. -/
def pollEventsBody (e : Event) (shouldClose : Bool) : Bool :=
  let shouldClose := if e.type = EventType.Closed then true else shouldClose
  let shouldClose :=
    if e.type = EventType.KeyPressed && e.keyCode = Keyboard.Escape then true else shouldClose
  shouldClose

/-- The loop `while (window.pollEvent(e)) ...` of `pollEvents`: `pollEvent` pops the
front of the pending queue and returns false on an empty queue. The result is the queue
left behind and the flag. -/
def pollEventsLoop : List Event → Bool → List Event × Bool
  | [], shouldClose => ([], shouldClose)
  | e :: pending, shouldClose => pollEventsLoop pending (pollEventsBody e shouldClose)

/-- The function `pollEvents`; the result is the final value of the reference argument. -/
def pollEvents (shouldClose : Bool) (s_state : Option State) :
    Except Fault Bool × Option State :=
  match s_state with
  | none => (.error .nullDeref, none)
  | some s =>
    let r := pollEventsLoop s.window.events shouldClose
    (.ok r.2, some { s with window := { s.window with events := r.1 } })

/-- A function-local `static std::unordered_map<std::string, R> cache`. A node is never
moved or erased, so its position in `nodes` (insertion order) identifies the reference
that `loadFont` and `loadTexture` return. `loadCalls` records, in order, the paths given
to `loadFromFile`. -/
structure Cache (R : Type) where
  nodes : List (String × R) := []
  loadCalls : List String := []

/-- The lookup `cache.find(path)` on the node list: the position of the node with that
key. -/
def findNode {R : Type} : List (String × R) → String → Option Nat
  | [], _ => none
  | (k, _) :: rest, path => if k = path then some 0 else (findNode rest path).map (· + 1)

/-- The lookup `cache.find(path)`: `none` is `cache.end()`. -/
def Cache.find {R : Type} (cache : Cache R) (path : String) : Option Nat :=
  findNode cache.nodes path

/-- The value behind a reference returned by a cache (`none` for a dangling position). -/
def Cache.deref {R : Type} (cache : Cache R) (ref : Nat) : Option R :=
  (cache.nodes.get? ref).map Prod.snd

/-- SFML `sf::Font::loadFromFile`: the success flag and the font afterwards (emptied on
failure). -/
def Font.loadFromFile (B : Backend) (_f : Font) (path : String) : Bool × Font :=
  match B.fontFile path with
  | some d => (true, { face := some d })
  | none => (false, {})

/-- SFML `sf::Texture::loadFromFile`: the success flag and the texture afterwards (as it
was on failure). -/
def Texture.loadFromFile (B : Backend) (t : Texture) (path : String) : Bool × Texture :=
  match B.textureFile path with
  | some img => (true, { t with image := some img })
  | none => (false, t)

/-- SFML `sf::Texture::setSmooth`. -/
def Texture.setSmooth (t : Texture) (smooth : Bool) : Texture := { t with smooth := smooth }

/-- The function `loadFont`: the reference returned and the cache afterwards. The flag
returned by `loadFromFile` is dropped. -/
def loadFont (B : Backend) (path : String) (cache : Cache Font) : Nat × Cache Font :=
  match cache.find path with
  | some it => (it, cache)
  | none =>
    let f : Font := {}
    let loaded := Font.loadFromFile B f path
    (cache.nodes.length,
      { nodes := cache.nodes ++ [(path, loaded.2)], loadCalls := cache.loadCalls ++ [path] })

/-- The function `loadTexture`: the reference returned and the cache afterwards. The flag
returned by `loadFromFile` is dropped. -/
def loadTexture (B : Backend) (path : String) (cache : Cache Texture) : Nat × Cache Texture :=
  match cache.find path with
  | some it => (it, cache)
  | none =>
    let tex : Texture := {}
    let loaded := Texture.loadFromFile B tex path
    let tex := loaded.2.setSmooth true
    (cache.nodes.length,
      { nodes := cache.nodes ++ [(path, tex)], loadCalls := cache.loadCalls ++ [path] })

/-- The cache after `loadFont` has been called on each path of a list, in order. -/
def loadFontAll (B : Backend) (paths : List String) (cache : Cache Font) : Cache Font :=
  paths.foldl (fun c p => (loadFont B p c).2) cache

/-- The cache after `loadTexture` has been called on each path of a list, in order. -/
def loadTextureAll (B : Backend) (paths : List String) (cache : Cache Texture) :
    Cache Texture :=
  paths.foldl (fun c p => (loadTexture B p c).2) cache

/-! ## Text and sprites -/

/-- The function `measureText`. -/
def measureText (B : Backend) (str : String) (font : Font) (size : Nat) : Vector2f :=
  let t : Text := { string := str, font := font, characterSize := size }
  let b := B.localBounds t
  { x := b.width, y := b.height }

/-- The kinds of value a `HintVal` can hold. -/
inductive HintKind where
  | bool
  | int
  | string
  deriving DecidableEq, Repr

/-- The alternative a `HintVal` holds. -/
def HintVal.kind : HintVal → HintKind
  | .ofBool _ => .bool
  | .ofInt _ => .int
  | .ofString _ => .string

/-- The alternative that `windowHint` extracts for a key. -/
def HintKey.declared : HintKey → HintKind
  | .GCP_RESIZABLE => .bool
  | .GCP_VSYNC => .bool
  | .GCP_FPS_LIMIT => .int
  | .GCP_MSAA => .int
  | .GCP_TITLE => .string
  | .GCP_SIZE_W => .int
  | .GCP_SIZE_H => .int

/-- The `Config` member that a key names, as a `HintVal`. -/
def Config.field (c : Config) : HintKey → HintVal
  | .GCP_RESIZABLE => .ofBool c.resizable
  | .GCP_VSYNC => .ofBool c.vsync
  | .GCP_FPS_LIMIT => .ofInt c.fpsLimit
  | .GCP_MSAA => .ofInt c.msaa
  | .GCP_TITLE => .ofString c.title
  | .GCP_SIZE_W => .ofInt c.w
  | .GCP_SIZE_H => .ofInt c.h

/-- The Configuration in force: that of the context, the default one when there is no
context. -/
def currentConfig (s_state : Option State) : Config :=
  match s_state with
  | some s => s.cfg
  | none => {}

/-- The `initialized` flag, false when there is no context. -/
def isInitialized (s_state : Option State) : Bool :=
  match s_state with
  | some s => s.initialized
  | none => false

/-- Whether the backend makes the surface that `createWindow` requests for a
Configuration (the arguments of its `window.create` call). -/
def Backend.makes (B : Backend) (cfg : Config) : Bool :=
  B.makeSurface (toUnsigned cfg.w) (toUnsigned cfg.h) cfg.title
    (if cfg.resizable then Style.Default else (Style.Titlebar ||| Style.Close))
    (toUnsigned cfg.msaa)

/-- An event that makes `pollEvents` raise the flag: a close request, or a press of the
quit key. -/
def isQuitEvent (e : Event) : Bool :=
  decide (e.type = EventType.Closed) ||
    (decide (e.type = EventType.KeyPressed) && decide (e.keyCode = Keyboard.Escape))

/-- The shape that `loadFont` and `loadTexture` share: look the path up, and when it is
absent append a node holding what `load` makes of the path, recording the call. -/
def acquire {R : Type} (load : String → R) (path : String) (cache : Cache R) : Nat × Cache R :=
  match cache.find path with
  | some it => (it, cache)
  | none =>
    (cache.nodes.length,
      { nodes := cache.nodes ++ [(path, load path)], loadCalls := cache.loadCalls ++ [path] })

/-- The cache after `acquire` on each path of a list, in order. -/
def acquireAll {R : Type} (load : String → R) (paths : List String) (cache : Cache R) :
    Cache R :=
  paths.foldl (fun c p => (acquire load p c).2) cache

/-- What `loadFont` stores for a path that is not cached. -/
def fontOf (B : Backend) (path : String) : Font := (Font.loadFromFile B {} path).2

/-- What `loadTexture` stores for a path that is not cached. -/
def textureOf (B : Backend) (path : String) : Texture :=
  (Texture.loadFromFile B {} path).2.setSmooth true

/-- A backend that makes a surface exactly for a non-zero size, and knows one font file
and one texture file. -/
def sampleBackend : Backend where
  makeSurface := fun w h _ _ _ => decide (0 < w) && decide (0 < h)
  fontFile := fun p => if p = "Roboto-Regular.ttf" then some { bytes := [0, 1, 0, 0] } else none
  textureFile := fun p => if p = "ball.png" then some { width := 32, height := 32 } else none
  localBounds := fun t =>
    { left := 0, top := 0,
      width := ((t.string.length * t.characterSize : Nat) : Scalar),
      height := ((t.characterSize : Nat) : Scalar) }

/-- The state after `createWindow` on no context, with the sample backend. -/
def sampleOpenState : Option State := (createWindow sampleBackend 0 none).2

/-- The state after `windowHint(GCP_SIZE_W, 0)` on no context: a context that exists, is
not initialised, and asks for width 0. -/
def sampleZeroWidth : Option State :=
  (windowHint 0 HintKey.GCP_SIZE_W (HintVal.ofInt 0) none).2

theorem windowHint_none (now : Int) (key : HintKey) (val : HintVal) :
    windowHint now key val none = windowHint now key val (some (State.new now)) := by
  simp [windowHint, createContext]

theorem windowHint_mismatch (now : Int) (key : HintKey) (val : HintVal) (s : State)
    (h : val.kind ≠ key.declared) :
    windowHint now key val (some s) = (.error .badVariantAccess, some s) := by
  cases key <;> cases val <;>
    simp_all [windowHint, HintVal.kind, HintKey.declared, HintVal.getBool, HintVal.getInt,
      HintVal.getString, Except.map]

theorem windowHint_match (now : Int) (key : HintKey) (val : HintVal) (s : State)
    (h : val.kind = key.declared) :
    ∃ c : Config, windowHint now key val (some s) = (.ok (), some { s with cfg := c }) ∧
      c.field key = val ∧ ∀ k, k ≠ key → c.field k = s.cfg.field k := by
  cases key <;> cases val <;>
    simp_all [windowHint, HintVal.kind, HintKey.declared, HintVal.getBool, HintVal.getInt,
      HintVal.getString, Except.map, Config.field] <;>
    intro k hk <;> cases k <;> simp_all

/-- C3: a hint value of the wrong variant makes `windowHint` fail (with
`std::bad_variant_access`), and the Configuration afterwards is the one before the call,
the default one when no context existed; nothing else changes either, apart from the
creation of the context. -/
theorem windowHint_wrong_variant_fails (now : Int) (key : HintKey) (val : HintVal)
    (s_state : Option State) (h : val.kind ≠ key.declared) :
    (windowHint now key val s_state).1 = .error .badVariantAccess ∧
      currentConfig (windowHint now key val s_state).2 = currentConfig s_state ∧
      (windowHint now key val s_state).2 = createContext now s_state := by
  cases s_state with
  | none =>
    rw [windowHint_none, windowHint_mismatch now key val _ h]
    simp [currentConfig, createContext, State.new]
  | some s =>
    rw [windowHint_mismatch now key val s h]
    simp [currentConfig, createContext]

/-- C3 at a concrete input: a string given for `GCP_SIZE_W` when no context exists. -/
theorem windowHint_wrong_variant_fails_witness :
    (windowHint 0 HintKey.GCP_SIZE_W (HintVal.ofString "wide") none).1
        = .error .badVariantAccess ∧
      currentConfig (windowHint 0 HintKey.GCP_SIZE_W (HintVal.ofString "wide") none).2
        = currentConfig none ∧
      (windowHint 0 HintKey.GCP_SIZE_W (HintVal.ofString "wide") none).2
        = createContext 0 none :=
  windowHint_wrong_variant_fails 0 HintKey.GCP_SIZE_W (HintVal.ofString "wide") none
    (by decide)

/-- C4: a hint value of the declared variant makes `windowHint` return normally with
exactly the Configuration member that the key names set to the value: every other member
keeps its value, and so do the `initialized` flag and the rest of the context (which is
created with the default Configuration first when there was none). -/
theorem windowHint_sets_exactly_the_field (now : Int) (key : HintKey) (val : HintVal)
    (s_state : Option State) (h : val.kind = key.declared) :
    (windowHint now key val s_state).1 = .ok () ∧
      (currentConfig (windowHint now key val s_state).2).field key = val ∧
      (∀ k, k ≠ key → (currentConfig (windowHint now key val s_state).2).field k
        = (currentConfig s_state).field k) ∧
      isInitialized (windowHint now key val s_state).2 = isInitialized s_state ∧
      (windowHint now key val s_state).2 = (createContext now s_state).map
        (fun s => { s with cfg := currentConfig (windowHint now key val s_state).2 }) := by
  cases s_state with
  | none =>
    obtain ⟨c, hc, hkey, hrest⟩ := windowHint_match now key val (State.new now) h
    rw [windowHint_none, hc]
    refine ⟨rfl, hkey, ?_, rfl, ?_⟩
    · intro k hk
      simpa [currentConfig, State.new] using hrest k hk
    · simp [currentConfig, createContext]
  | some s =>
    obtain ⟨c, hc, hkey, hrest⟩ := windowHint_match now key val s h
    rw [hc]
    refine ⟨rfl, hkey, ?_, rfl, ?_⟩
    · intro k hk
      simpa [currentConfig] using hrest k hk
    · simp [currentConfig, createContext]

/-- C4 at a concrete input: the title hint of `pong.cpp`, given when no context exists. -/
theorem windowHint_sets_exactly_the_field_witness :
    (windowHint 0 HintKey.GCP_TITLE (HintVal.ofString "GCP Pong (no text)") none).1 = .ok () ∧
      (currentConfig
        (windowHint 0 HintKey.GCP_TITLE (HintVal.ofString "GCP Pong (no text)") none).2).title
        = "GCP Pong (no text)" :=
  have h := windowHint_sets_exactly_the_field 0 HintKey.GCP_TITLE
    (HintVal.ofString "GCP Pong (no text)") none (by decide)
  ⟨h.1, by simpa [Config.field] using h.2.1⟩

/-- C5 fails as stated: after `createWindow` (context initialised, surface open) the call
`windowHint(GCP_SIZE_W, 800)` returns normally and writes 800 over the width 1024. -/
theorem windowHint_after_createWindow_not_rejected :
    isInitialized sampleOpenState = true ∧ isOpen sampleOpenState = true ∧
      (windowHint 0 HintKey.GCP_SIZE_W (HintVal.ofInt 800) sampleOpenState).1 = .ok () ∧
      (currentConfig sampleOpenState).w = 1024 ∧
      (currentConfig
        (windowHint 0 HintKey.GCP_SIZE_W (HintVal.ofInt 800) sampleOpenState).2).w = 800 := by
  simp [sampleOpenState, createWindow, createContext, State.new, isInitialized, isOpen,
    windowHint, HintVal.getInt, Except.map, currentConfig, RenderWindow.create, sampleBackend,
    toUnsigned]

/-- C5 as amended: on an initialised context `windowHint` does not look at the
`initialized` flag. A value of the wrong variant fails and leaves the whole state as it
was; a value of the declared variant is not rejected: the call returns normally and
writes the value into the member the key names, every other member, the flag and the
window keeping their values. -/
theorem windowHint_on_initialized_context (now : Int) (key : HintKey) (val : HintVal)
    (s : State) (hinit : s.initialized = true) :
    (val.kind ≠ key.declared →
      windowHint now key val (some s) = (.error .badVariantAccess, some s)) ∧
    (val.kind = key.declared →
      ∃ c : Config, windowHint now key val (some s) = (.ok (), some { s with cfg := c }) ∧
        c.field key = val ∧ (∀ k, k ≠ key → c.field k = s.cfg.field k) ∧
        ({ s with cfg := c } : State).initialized = true ∧
        ({ s with cfg := c } : State).window = s.window) := by
  refine ⟨fun h => windowHint_mismatch now key val s h, fun h => ?_⟩
  obtain ⟨c, hc, hkey, hrest⟩ := windowHint_match now key val s h
  exact ⟨c, hc, hkey, hrest, hinit, rfl⟩

/-- C5 as amended, at a concrete input: `GCP_VSYNC` set to false on an initialised context. -/
theorem windowHint_on_initialized_context_witness :
    ∃ c : Config,
      windowHint 0 HintKey.GCP_VSYNC (HintVal.ofBool false)
          (some { State.new 0 with initialized := true })
        = (.ok (), some { State.new 0 with initialized := true, cfg := c }) ∧
      c.vsync = false := by
  obtain ⟨c, hc, hkey, _⟩ :=
    (windowHint_on_initialized_context 0 HintKey.GCP_VSYNC (HintVal.ofBool false)
      { State.new 0 with initialized := true } rfl).2 (by decide)
  exact ⟨c, hc, by simpa [Config.field] using hkey⟩

/-! ## Surface creation and destruction -/

theorem createWindow_eq (B : Backend) (now : Int) (s_state : Option State) :
    ∃ s' : State, (createWindow B now s_state).2 = some s' ∧
      (createWindow B now s_state).1 = .ok true ∧
      s'.initialized = true ∧ s'.cfg = currentConfig s_state ∧
      s'.window.opened = B.makes (currentConfig s_state) := by
  cases s_state with
  | none =>
    refine ⟨_, rfl, rfl, rfl, rfl, ?_⟩
    simp only [Option.isNone_none, if_true, createContext]
    split <;> simp [RenderWindow.create, Backend.makes, currentConfig, State.new]
  | some s =>
    refine ⟨_, rfl, rfl, rfl, rfl, ?_⟩
    simp only [Option.isNone_some, if_false]
    split <;> simp [RenderWindow.create, Backend.makes, currentConfig]

/-- C6 fails as stated: with a backend that makes no surface of width 0, `createWindow`
on a Configuration of width 0 returns `true` and marks the context initialised, although
no surface is open. -/
theorem createWindow_swallows_failure :
    (currentConfig sampleZeroWidth).w = 0 ∧
      sampleBackend.makes (currentConfig sampleZeroWidth) = false ∧
      (createWindow sampleBackend 0 sampleZeroWidth).1 = .ok true ∧
      isInitialized (createWindow sampleBackend 0 sampleZeroWidth).2 = true ∧
      isOpen (createWindow sampleBackend 0 sampleZeroWidth).2 = false := by
  simp [sampleZeroWidth, createWindow, createContext, State.new, isInitialized, isOpen,
    windowHint, HintVal.getInt, Except.map, currentConfig, RenderWindow.create, sampleBackend,
    toUnsigned, Backend.makes]

/-- C6 as amended: `createWindow` reports no failure. For every backend and every state
it returns `true` and marks the context initialised, whether or not the backend made the
surface; a surface that could not be made shows only in `isOpen`, which afterwards is
true exactly when the backend made it. -/
theorem createWindow_always_true (B : Backend) (now : Int) (s_state : Option State) :
    (createWindow B now s_state).1 = .ok true ∧
      isInitialized (createWindow B now s_state).2 = true ∧
      isOpen (createWindow B now s_state).2 = B.makes (currentConfig s_state) ∧
      currentConfig (createWindow B now s_state).2 = currentConfig s_state := by
  obtain ⟨s', hs', hr, hi, hc, ho⟩ := createWindow_eq B now s_state
  rw [hs', hr]
  exact ⟨rfl, hi, ho, hc⟩

/-- C7: when the backend makes the surface that `createWindow` requests (for any
Configuration, so in particular for every one with width and height above 0, and any
prior state), `isOpen` is true after `createWindow`; after `destroyContext` on any state
no context exists and `isOpen` is false; and `destroyContext` on no context leaves no
context. -/
theorem isOpen_after_createWindow_and_destroyContext (B : Backend) (now : Int)
    (s_state other : Option State) (hmade : B.makes (currentConfig s_state) = true) :
    isOpen (createWindow B now s_state).2 = true ∧
      destroyContext (createWindow B now s_state).2 = none ∧
      isOpen (destroyContext (createWindow B now s_state).2) = false ∧
      destroyContext other = none ∧ isOpen (destroyContext other) = false ∧
      destroyContext none = none := by
  obtain ⟨s', hs', _, _, _, ho⟩ := createWindow_eq B now s_state
  rw [hs']
  refine ⟨?_, rfl, rfl, ?_, ?_, rfl⟩
  · exact ho.trans hmade
  · cases other <;> rfl
  · cases other <;> rfl

/-- C7 at a concrete input: the default Configuration (1024 by 720) with the sample backend. -/
theorem isOpen_after_createWindow_and_destroyContext_witness :
    0 < (currentConfig none).w ∧ 0 < (currentConfig none).h ∧
      isOpen (createWindow sampleBackend 0 none).2 = true ∧
      isOpen (destroyContext (createWindow sampleBackend 0 none).2) = false :=
  have h := isOpen_after_createWindow_and_destroyContext sampleBackend 0 none none
    (by simp [Backend.makes, sampleBackend, currentConfig, toUnsigned])
  ⟨by decide, by decide, h.1, h.2.2.1⟩

/-! ## Frame loop and drawing -/

theorem pollEventsBody_eq (e : Event) (shouldClose : Bool) :
    pollEventsBody e shouldClose = (shouldClose || isQuitEvent e) := by
  unfold pollEventsBody isQuitEvent
  by_cases h1 : e.type = EventType.Closed <;> by_cases h2 : e.type = EventType.KeyPressed <;>
    by_cases h3 : e.keyCode = Keyboard.Escape <;> cases shouldClose <;> simp [h1, h2, h3]

theorem pollEventsLoop_eq (pending : List Event) (shouldClose : Bool) :
    pollEventsLoop pending shouldClose = ([], shouldClose || pending.any isQuitEvent) := by
  induction pending generalizing shouldClose with
  | nil => simp [pollEventsLoop]
  | cons e rest ih =>
    rw [pollEventsLoop, ih, pollEventsBody_eq]
    simp [Bool.or_assoc]

/-- C9: on every context `pollEvents` drains the whole pending queue, and the flag
afterwards is the flag on entry OR-ed with "some drained event is `Closed`, or is
`KeyPressed` with key code `Escape`"; so the flag is true afterwards when such an event
was pending, and a flag that was true on entry stays true. -/
theorem pollEvents_drains_and_accumulates (shouldClose : Bool) (s : State) :
    pollEvents shouldClose (some s) =
        (.ok (shouldClose || s.window.events.any isQuitEvent),
          some { s with window := { s.window with events := [] } }) ∧
      ((shouldClose || s.window.events.any isQuitEvent) = true ↔
        shouldClose = true ∨ ∃ e ∈ s.window.events,
          e.type = EventType.Closed ∨
            (e.type = EventType.KeyPressed ∧ e.keyCode = Keyboard.Escape)) := by
  constructor
  · simp [pollEvents, pollEventsLoop_eq]
  · simp [isQuitEvent]

theorem findNode_append_left {R : Type} (l l' : List (String × R)) (p : String) (i : Nat)
    (h : findNode l p = some i) : findNode (l ++ l') p = some i := by
  induction l generalizing i with
  | nil => simp [findNode] at h
  | cons kv rest ih =>
    obtain ⟨k, r⟩ := kv
    by_cases hk : k = p
    · simpa [findNode, hk] using h
    · simp only [findNode, hk, if_false, Option.map_eq_some', List.cons_append] at h ⊢
      obtain ⟨j, hj, hji⟩ := h
      exact ⟨j, ih j hj, hji⟩

theorem findNode_append_new {R : Type} (l : List (String × R)) (p : String) (r : R)
    (h : findNode l p = none) : findNode (l ++ [(p, r)]) p = some l.length := by
  induction l with
  | nil => simp [findNode]
  | cons kv rest ih =>
    obtain ⟨k, r'⟩ := kv
    by_cases hk : k = p
    · simp [findNode, hk] at h
    · simp only [findNode, hk, if_false, Option.map_eq_none', List.cons_append] at h ⊢
      simp [ih h]

theorem findNode_get {R : Type} (l : List (String × R)) (p : String) (i : Nat)
    (h : findNode l p = some i) : ∃ r, l.get? i = some (p, r) := by
  induction l generalizing i with
  | nil => simp [findNode] at h
  | cons kv rest ih =>
    obtain ⟨k, r⟩ := kv
    by_cases hk : k = p
    · simp only [findNode, hk, if_true, Option.some.injEq] at h
      subst h
      exact ⟨r, by simp [hk]⟩
    · simp only [findNode, hk, if_false, Option.map_eq_some'] at h
      obtain ⟨j, hj, hji⟩ := h
      subst hji
      simpa using ih j hj

theorem get?_append_of_some {α : Type} (l l' : List α) (i : Nat) (x : α)
    (h : l.get? i = some x) : (l ++ l').get? i = some x := by
  induction l generalizing i with
  | nil => simp at h
  | cons a rest ih =>
    cases i with
    | zero => simpa using h
    | succ j => simpa using ih j (by simpa using h)

theorem acquire_found {R : Type} (load : String → R) (p : String) (c : Cache R) (i : Nat)
    (h : c.find p = some i) : acquire load p c = (i, c) := by
  simp [acquire, h]

theorem acquire_fresh {R : Type} (load : String → R) (p : String) (c : Cache R)
    (h : c.find p = none) :
    acquire load p c = (c.nodes.length,
      { nodes := c.nodes ++ [(p, load p)], loadCalls := c.loadCalls ++ [p] }) := by
  simp [acquire, h]

theorem acquire_find_self {R : Type} (load : String → R) (p : String) (c : Cache R) :
    (acquire load p c).2.find p = some (acquire load p c).1 := by
  cases h : c.find p with
  | some i => rw [acquire_found load p c i h]; exact h
  | none =>
    rw [acquire_fresh load p c h]
    exact findNode_append_new c.nodes p (load p) h

theorem acquire_keeps {R : Type} (load : String → R) (p q : String) (c : Cache R) (i : Nat)
    (x : String × R) (hq : c.find q = some i) (hx : c.nodes.get? i = some x) :
    (acquire load p c).2.find q = some i ∧ (acquire load p c).2.nodes.get? i = some x ∧
      (acquire load p c).2.loadCalls.count q = c.loadCalls.count q := by
  cases h : c.find p with
  | some j => rw [acquire_found load p c j h]; exact ⟨hq, hx, rfl⟩
  | none =>
    rw [acquire_fresh load p c h]
    refine ⟨findNode_append_left c.nodes _ q i hq, get?_append_of_some c.nodes _ i x hx, ?_⟩
    have hne : p ≠ q := by
      intro hpq
      rw [hpq, hq] at h
      cases h
    simp [List.count_append, List.count_singleton, hne]

theorem acquireAll_keeps {R : Type} (load : String → R) (ps : List String) (q : String)
    (c : Cache R) (i : Nat) (x : String × R) (hq : c.find q = some i)
    (hx : c.nodes.get? i = some x) :
    (acquireAll load ps c).find q = some i ∧ (acquireAll load ps c).nodes.get? i = some x ∧
      (acquireAll load ps c).loadCalls.count q = c.loadCalls.count q := by
  induction ps generalizing c with
  | nil => exact ⟨hq, hx, rfl⟩
  | cons p rest ih =>
    obtain ⟨h1, h2, h3⟩ := acquire_keeps load p q c i x hq hx
    obtain ⟨k1, k2, k3⟩ := ih (acquire load p c).2 h1 h2
    exact ⟨k1, k2, k3.trans h3⟩

theorem acquire_twice {R : Type} (load : String → R) (p : String) (between : List String)
    (c : Cache R) :
    (acquire load p (acquireAll load between (acquire load p c).2)).1 = (acquire load p c).1 ∧
      (acquire load p (acquireAll load between (acquire load p c).2)).2.deref
          (acquire load p (acquireAll load between (acquire load p c).2)).1
        = (acquire load p c).2.deref (acquire load p c).1 ∧
      ∃ r, (acquire load p c).2.deref (acquire load p c).1 = some r := by
  have hself := acquire_find_self load p c
  obtain ⟨r, hr⟩ := findNode_get _ p _ hself
  obtain ⟨k1, k2, _⟩ := acquireAll_keeps load between p _ _ _ hself hr
  rw [acquire_found load p _ _ k1]
  exact ⟨rfl, by unfold Cache.deref; rw [k2, hr], r, by unfold Cache.deref; rw [hr]; rfl⟩

theorem acquireAll_count_le {R : Type} (load : String → R) (ps : List String) (p : String)
    (c : Cache R) :
    (acquireAll load ps c).loadCalls.count p ≤ c.loadCalls.count p + 1 := by
  induction ps generalizing c with
  | nil => exact Nat.le_succ _
  | cons q rest ih =>
    show (acquireAll load rest (acquire load q c).2).loadCalls.count p ≤ _
    cases hq : c.find q with
    | some j =>
      rw [acquire_found load q c j hq]
      exact ih c
    | none =>
      by_cases hqp : q = p
      · subst hqp
        have hself := acquire_find_self load q c
        obtain ⟨r, hr⟩ := findNode_get _ q _ hself
        obtain ⟨_, _, k3⟩ := acquireAll_keeps load rest q _ _ _ hself hr
        rw [k3, acquire_fresh load q c hq]
        simp [List.count_append]
      · refine (ih (acquire load q c).2).trans ?_
        rw [acquire_fresh load q c hq]
        simp [List.count_append, List.count_singleton, hqp]

theorem loadFont_eq_acquire (B : Backend) (p : String) (c : Cache Font) :
    loadFont B p c = acquire (fontOf B) p c := by
  unfold loadFont acquire fontOf
  cases c.find p <;> rfl

theorem loadTexture_eq_acquire (B : Backend) (p : String) (c : Cache Texture) :
    loadTexture B p c = acquire (textureOf B) p c := by
  unfold loadTexture acquire textureOf
  cases c.find p <;> rfl

theorem loadFontAll_eq_acquireAll (B : Backend) (ps : List String) (c : Cache Font) :
    loadFontAll B ps c = acquireAll (fontOf B) ps c := by
  simp [loadFontAll, acquireAll, loadFont_eq_acquire]

theorem loadTextureAll_eq_acquireAll (B : Backend) (ps : List String) (c : Cache Texture) :
    loadTextureAll B ps c = acquireAll (textureOf B) ps c := by
  simp [loadTextureAll, acquireAll, loadTexture_eq_acquire]

/-- C1: in the font cache and in the texture cache alike, from any cache state, a second
call for a path `p`, directly after the first or after any calls for other paths in
between, returns the same node as the first call, holding the same loaded value; and
over any sequence of calls `loadFromFile` is invoked for `p` at most once (the number of
its invocations for `p` grows by at most one, and from the empty cache is at most one). -/
theorem cache_same_entry_and_single_load (B : Backend) (p : String)
    (between calls : List String) (fonts : Cache Font) (textures : Cache Texture) :
    ((loadFont B p (loadFontAll B between (loadFont B p fonts).2)).1
        = (loadFont B p fonts).1 ∧
      (loadFont B p (loadFontAll B between (loadFont B p fonts).2)).2.deref
          (loadFont B p (loadFontAll B between (loadFont B p fonts).2)).1
        = (loadFont B p fonts).2.deref (loadFont B p fonts).1 ∧
      (∃ f, (loadFont B p fonts).2.deref (loadFont B p fonts).1 = some f) ∧
      (loadFontAll B calls fonts).loadCalls.count p ≤ fonts.loadCalls.count p + 1 ∧
      (loadFontAll B calls {}).loadCalls.count p ≤ 1) ∧
    ((loadTexture B p (loadTextureAll B between (loadTexture B p textures).2)).1
        = (loadTexture B p textures).1 ∧
      (loadTexture B p (loadTextureAll B between (loadTexture B p textures).2)).2.deref
          (loadTexture B p (loadTextureAll B between (loadTexture B p textures).2)).1
        = (loadTexture B p textures).2.deref (loadTexture B p textures).1 ∧
      (∃ t, (loadTexture B p textures).2.deref (loadTexture B p textures).1 = some t) ∧
      (loadTextureAll B calls textures).loadCalls.count p
        ≤ textures.loadCalls.count p + 1 ∧
      (loadTextureAll B calls {}).loadCalls.count p ≤ 1) := by
  simp only [loadFont_eq_acquire, loadTexture_eq_acquire, loadFontAll_eq_acquireAll,
    loadTextureAll_eq_acquireAll]
  obtain ⟨f1, f2, f3⟩ := acquire_twice (fontOf B) p between fonts
  obtain ⟨t1, t2, t3⟩ := acquire_twice (textureOf B) p between textures
  exact ⟨⟨f1, f2, f3, acquireAll_count_le _ calls p fonts,
      by simpa using acquireAll_count_le (fontOf B) calls p {}⟩,
    ⟨t1, t2, t3, acquireAll_count_le _ calls p textures,
      by simpa using acquireAll_count_le (textureOf B) calls p {}⟩⟩

/-- C2 fails as stated: the sample backend cannot load "missing.png", yet `loadTexture`
inserts a node for it (an empty texture with smoothing on), the second call returns that
node, and over the two calls `loadFromFile` is invoked once, not twice. -/
theorem loadTexture_caches_failed_load :
    sampleBackend.textureFile "missing.png" = none ∧
      (loadTexture sampleBackend "missing.png" {}).2.nodes
        = [("missing.png", { image := none, smooth := true })] ∧
      (loadTexture sampleBackend "missing.png"
          (loadTexture sampleBackend "missing.png" {}).2).1 = 0 ∧
      (loadTextureAll sampleBackend ["missing.png", "missing.png"] {}).loadCalls
        = ["missing.png"] := by
  simp [loadTextureAll, loadTexture, Cache.find, findNode, sampleBackend,
    Texture.loadFromFile, Texture.setSmooth]

/-- C2 as amended: `loadTexture` reports no failure. For a path the backend cannot load
and that is not cached yet, it invokes `loadFromFile` once, inserts a node holding the
empty texture with smoothing on, and returns that node; a later call for the path returns
the same node from the cache and does not invoke `loadFromFile` again. -/
theorem loadTexture_unloadable_path (B : Backend) (p : String) (cache : Cache Texture)
    (hbad : B.textureFile p = none) (hnew : cache.find p = none) :
    (loadTexture B p cache).1 = cache.nodes.length ∧
      (loadTexture B p cache).2.nodes
        = cache.nodes ++ [(p, { image := none, smooth := true })] ∧
      (loadTexture B p cache).2.loadCalls = cache.loadCalls ++ [p] ∧
      (loadTexture B p (loadTexture B p cache).2).1 = (loadTexture B p cache).1 ∧
      (loadTexture B p (loadTexture B p cache).2).2.nodes = (loadTexture B p cache).2.nodes ∧
      (loadTexture B p (loadTexture B p cache).2).2.loadCalls
        = (loadTexture B p cache).2.loadCalls := by
  have hself := acquire_find_self (textureOf B) p cache
  have hfresh := acquire_fresh (textureOf B) p cache hnew
  have hval : textureOf B p = { image := none, smooth := true } := by
    simp [textureOf, Texture.loadFromFile, hbad, Texture.setSmooth]
  simp only [loadTexture_eq_acquire]
  rw [acquire_found (textureOf B) p _ _ hself, hfresh, hval]
  exact ⟨rfl, rfl, rfl, rfl, rfl, rfl⟩

/-- C2 as amended, at a concrete input: "missing.png" on the empty cache. -/
theorem loadTexture_unloadable_path_witness :
    (loadTexture sampleBackend "missing.png" {}).1 = 0 ∧
      (loadTexture sampleBackend "missing.png"
          (loadTexture sampleBackend "missing.png" {}).2).2.loadCalls = ["missing.png"] :=
  have h := loadTexture_unloadable_path sampleBackend "missing.png" {}
    (by simp [sampleBackend]) rfl
  ⟨h.1, h.2.2.2.2.2.trans h.2.2.1⟩

end gcp
